import Mathlib

/-!
Verification of the damage-assessment policy engine.

Shallow embedding of the decision/costing logic of the repository:
  * `src/server/policy.ts` — `applyPolicy` and its helpers (totals,
    confidence, risk flags, recommendation, fraud score, routing,
    validation);
  * `src/server/costing.ts` — `estimatePartCostRange`,
    `computeTotalsFromParts`;
  * `src/config/policy.ts` — the `COST` configuration constants;
  * `src/app/api/damage_assessment/route.ts` — the mock pipeline's own
    `collectRiskFlags` and `calculateSeverityVariance`.

Modelling conventions: money and confidence values are rationals (the
sources use JS numbers on integer cents and decimal fractions);
`Math.round x` is `jsRound`, the floor of `x + 1/2`; a JS field that may
be `undefined` is an `Option`, and arithmetic/comparisons on such values
follow JS semantics (`undefined`/`NaN` contaminates sums, compares
false) via `jadd`, `jsGT`, `jsLE`.  The `_meta` block of an assessment
(timestamps, model version) is provenance only and is not modelled.
-/

-- ============================================================================
-- Data model (src/types/assessment.ts)
-- ============================================================================

/-- One `{type, severity, area_percentage}` refinement of a damaged part
(`DamageTypeDetail` in src/types/assessment.ts). -/
structure DamageTypeDetail where
  type : String
  severity : String
  area_percentage : Option ℚ
deriving DecidableEq

/-- A detected damaged part (`DamagedPart` in src/types/assessment.ts).
`part_id` and `severity` are strings: the TS enums `VehiclePart` and
`PartSeverity` are string-valued and the code also tolerates raw strings.
The cost fields are `Option` because costing.ts guards them with
`typeof === "number"`. -/
structure DamagedPart where
  part_id : String
  part_label : String
  severity : String
  confidence : ℚ
  estimated_cost_min : Option ℚ
  estimated_cost_max : Option ℚ
  repair_action : Option String
  damage_types : List DamageTypeDetail
deriving DecidableEq

/-- The string values of the `PartSeverity` enum. -/
def PartSeverity_values : List String :=
  ["minor", "moderate", "severe", "replace", "structural"]

/-- `RiskFlag` enum. -/
inductive RiskFlag where
  | LOW_CONFIDENCE
  | HIGH_EXPOSURE
  | STRUCTURAL_DAMAGE
  | MISSING_ANGLES
  | INCONSISTENT_DAMAGE
deriving DecidableEq

/-- `RecommendationCode` enum. -/
inductive RecommendationCode where
  | FAST_TRACK_REVIEW
  | MANUAL_REVIEW
  | ESCALATE_SENIOR
  | ESCALATE_STRUCTURAL
deriving DecidableEq

/-- The `recommendation` payload of an assessment. -/
structure Recommendation where
  code : RecommendationCode
  text : String
deriving DecidableEq

/-- `context.historicalData` of `PolicyContext` (src/server/policy.ts). -/
structure HistoricalData where
  similarClaimsCount : ℚ
  averageFinalCost : ℚ
  standardDeviation : ℚ
deriving DecidableEq

/-- `PolicyContext` (src/server/policy.ts); the optional `claim` reference
is never read by the engine and is not modelled. -/
structure PolicyContext where
  historicalData : Option HistoricalData := none
  userId : Option String := none
deriving DecidableEq

/-- The `assignTo` union of `RoutingInstructions`. -/
inductive Assignee where
  | agent
  | senior_adjuster
  | structural_engineer
  | siu
deriving DecidableEq

/-- `RoutingInstructions` (src/server/policy.ts). -/
structure RoutingInstructions where
  assignTo : Assignee
  priority : ℕ
  estimatedTimeMinutes : ℕ
  requiredActions : List String
deriving DecidableEq

/-- One entry of `cost_breakdown`. -/
structure CostBreakdownItem where
  label : String
  details : List String
deriving DecidableEq

/-- `Assessment` (src/types/assessment.ts) without the `_meta` provenance
block. `total_min`/`total_max` are `Option` because they are computed by
JS arithmetic over possibly missing part costs; `recommendation` is
`Option` because `validateAssessment` guards it with
`!assessment.recommendation?.code`. -/
structure Assessment where
  damaged_parts : List DamagedPart
  total_min : Option ℚ
  total_max : Option ℚ
  overall_confidence : ℚ
  recommendation : Option Recommendation
  flags : List RiskFlag
  image_quality : List String
  cost_breakdown : List CostBreakdownItem
  fraud_risk_score : Option ℚ
deriving DecidableEq

/-- `PolicyDecision` (src/server/policy.ts). -/
structure PolicyDecision where
  assessment : Assessment
  routingInstructions : RoutingInstructions
  complianceNotes : List String
deriving DecidableEq

/-- Result of `validateAssessment`. -/
structure ValidationResult where
  valid : Bool
  errors : List String
deriving DecidableEq

/-- A request photo (route.ts `Photo`); only its presence matters to the
embedded functions, which read the photo count alone. -/
structure Photo where
  id : String
  filename : String
deriving DecidableEq

-- ============================================================================
-- JS numeric semantics
-- ============================================================================

/-- JS `Math.round`: the floor of `x + 1/2` (rounds halves up). -/
def jsRound (q : ℚ) : ℤ := (q + 1/2).floor

/-- JS `+` where `none` stands for a non-numeric operand
(`undefined`/`NaN`): any non-number contaminates the sum. -/
def jadd : Option ℚ → Option ℚ → Option ℚ
  | some a, some b => some (a + b)
  | _, _ => none

/-- JS `a > b` where a non-numeric operand (`undefined`/`NaN`) makes the
comparison false. -/
def jsGT : Option ℚ → Option ℚ → Bool
  | some a, some b => decide (b < a)
  | _, _ => false

/-- JS `a <= b` against a numeric bound, false for non-numeric `a`. -/
def jsLE : Option ℚ → ℚ → Bool
  | some a, b => decide (a ≤ b)
  | none, _ => false

/-- JS `Math.max` on two numbers. -/
def jmax (a b : ℚ) : ℚ := if a ≤ b then b else a

/-- JS `Math.min` on two numbers. -/
def jmin (a b : ℚ) : ℚ := if a ≤ b then a else b

-- ============================================================================
-- Cost configuration (src/config/policy.ts, `COST`)
-- ============================================================================

/-- `COST.LABOR_FRACTION` (labor as fraction of parts cost). -/
def LABOR_FRACTION : ℚ := 3/10

/-- `COST.DEFAULT_BASE_PART_COST` (cents). -/
def DEFAULT_BASE_PART_COST : ℚ := 40000

/-- `COST.MIN_PART_COST` (cents). -/
def MIN_PART_COST : ℚ := 10000

/-- `COST.RANGE.MIN_MULTIPLIER`. -/
def RANGE_MIN_MULTIPLIER : ℚ := 4/5

/-- `COST.RANGE.MAX_MULTIPLIER`. -/
def RANGE_MAX_MULTIPLIER : ℚ := 6/5

/-- `COST.DEFAULT_DAMAGE_TYPE_MULTIPLIER`. -/
def DEFAULT_DAMAGE_TYPE_MULTIPLIER : ℚ := 1/2

/-- `COST.DAMAGE_TYPE_MULTIPLIER.MIN`. -/
def DAMAGE_TYPE_MULTIPLIER_MIN : ℚ := 2/5

/-- `COST.DAMAGE_TYPE_MULTIPLIER.MAX`. -/
def DAMAGE_TYPE_MULTIPLIER_MAX : ℚ := 2

/-- `COST.AREA_FACTOR.NORMALIZATION_PERCENT`. -/
def AREA_NORMALIZATION_PERCENT : ℚ := 50

/-- `COST.AREA_FACTOR.MIN`. -/
def AREA_FACTOR_MIN : ℚ := 3/10

/-- `COST.AREA_FACTOR.MAX`. -/
def AREA_FACTOR_MAX : ℚ := 3/2

/-- `SEVERITY_MULTIPLIER_BY_KEY` of costing.ts, built from
`COST.SEVERITY_MULTIPLIERS` (minor 0.6, moderate 1.0, severe 1.5,
replace 1.8, structural 2.5); `none` for a key outside the table. -/
def SEVERITY_MULTIPLIER_BY_KEY (key : String) : Option ℚ :=
  if key = "minor" then some (3/5)
  else if key = "moderate" then some 1
  else if key = "severe" then some (3/2)
  else if key = "replace" then some (9/5)
  else if key = "structural" then some (5/2)
  else none

/-- `BASE_PART_COST` of costing.ts (cents), keyed by `VehiclePart`
values; only five parts have a specific mapping. -/
def BASE_PART_COST (part_id : String) : Option ℚ :=
  if part_id = "rear_bumper" then some 50000
  else if part_id = "trunk_lid" then some 60000
  else if part_id = "rear_left_taillight" then some 20000
  else if part_id = "rear_right_taillight" then some 20000
  else if part_id = "frame" then some 300000
  else none

/-- `DAMAGE_TYPE_MULTIPLIER` of costing.ts, from
`COST.DAMAGE_TYPE_MULTIPLIERS` (lowercased keys). -/
def DAMAGE_TYPE_MULTIPLIERS (key : String) : Option ℚ :=
  if key = "scratch" then some (3/10)
  else if key = "scuff" then some (1/4)
  else if key = "dent" then some (3/5)
  else if key = "crack" then some (7/10)
  else if key = "crush" then some (11/10)
  else if key = "tear" then some (4/5)
  else if key = "shatter" then some (9/10)
  else if key = "misalignment" then some (3/5)
  else if key = "structural_compromise" then some (3/2)
  else none

-- ============================================================================
-- Cost estimator (src/server/costing.ts)
-- ============================================================================

/-- `getBasePartCost`: the part's specific base cost, else the default. -/
def getBasePartCost (part : DamagedPart) : ℚ :=
  (BASE_PART_COST part.part_id).getD DEFAULT_BASE_PART_COST

/-- `getSeverityMultiplier`: normalize (lowercase) and look up, `?? 1.0`. -/
def getSeverityMultiplier (severity : String) : ℚ :=
  (SEVERITY_MULTIPLIER_BY_KEY severity.toLower).getD 1

/-- `areaFactor` inside `getDamageTypeMultiplier`: `area / 50` clamped to
`[0.3, 1.5]`, `1.0` when the area is absent. -/
def areaFactor : Option ℚ → ℚ
  | some area =>
      jmax AREA_FACTOR_MIN (jmin AREA_FACTOR_MAX (area / AREA_NORMALIZATION_PERCENT))
  | none => 1

/-- `getDamageTypeMultiplier`: average of `typeMultiplier × areaFactor`
over the damage types (`|| 1.0` guard on the average as in the source),
clamped to `[0.4, 2.0]`; `1.0` for an absent or empty list. -/
def getDamageTypeMultiplier (damageTypes : List DamageTypeDetail) : ℚ :=
  if damageTypes.isEmpty then 1
  else
    let total := damageTypes.foldl
      (fun acc d =>
        acc + ((DAMAGE_TYPE_MULTIPLIERS d.type.toLower).getD
          DEFAULT_DAMAGE_TYPE_MULTIPLIER) * areaFactor d.area_percentage) 0
    let q := total / (damageTypes.length : ℚ)
    let avg := if q = 0 then 1 else q
    jmax DAMAGE_TYPE_MULTIPLIER_MIN (jmin DAMAGE_TYPE_MULTIPLIER_MAX avg)

/-- The derived branch of `estimatePartCostRange`:
`mid = base × severityMul × damageMul`, `min = max(MIN_PART_COST,
round(mid × 0.8))`, `max = round(mid × 1.2)` (the floor is applied to
the minimum bound only, exactly as in the source). -/
def derivedCostRange (part : DamagedPart) : ℚ × ℚ :=
  let base := getBasePartCost part
  let severityMul := getSeverityMultiplier part.severity
  let damageMul := getDamageTypeMultiplier part.damage_types
  let mid := base * severityMul * damageMul
  (jmax MIN_PART_COST ((jsRound (mid * RANGE_MIN_MULTIPLIER) : ℤ) : ℚ),
   ((jsRound (mid * RANGE_MAX_MULTIPLIER) : ℤ) : ℚ))

/-- `estimatePartCostRange`: a caller-supplied range with both bounds
numeric and `max ≥ min` passes through unchanged; otherwise the range is
derived. -/
def estimatePartCostRange (part : DamagedPart) : ℚ × ℚ :=
  match part.estimated_cost_min, part.estimated_cost_max with
  | some lo, some hi => if lo ≤ hi then (lo, hi) else derivedCostRange part
  | _, _ => derivedCostRange part

/-- Return record of `computeTotalsFromParts` (cents). -/
structure PartsTotals where
  total_min : ℚ
  total_max : ℚ
  labor_min : ℚ
  labor_max : ℚ
deriving DecidableEq

/-- `computeTotalsFromParts`: sum the per-part estimated ranges, then add
`labor = round(partsSum × LABOR_FRACTION)` to each bound separately. -/
def computeTotalsFromParts (parts : List DamagedPart) : PartsTotals :=
  let s := parts.foldl
    (fun acc part =>
      let r := estimatePartCostRange part
      (acc.1 + r.1, acc.2 + r.2)) ((0 : ℚ), (0 : ℚ))
  let labor_min : ℚ := ((jsRound (s.1 * LABOR_FRACTION) : ℤ) : ℚ)
  let labor_max : ℚ := ((jsRound (s.2 * LABOR_FRACTION) : ℤ) : ℚ)
  { total_min := s.1 + labor_min
    total_max := s.2 + labor_max
    labor_min := labor_min
    labor_max := labor_max }

-- ============================================================================
-- Policy engine configuration (src/server/policy.ts, local CONFIG)
-- ============================================================================

/-- `FAST_TRACK.CONFIDENCE_THRESHOLD` in policy.ts. -/
def FAST_TRACK_CONFIDENCE_THRESHOLD : ℚ := 4/5

/-- `FAST_TRACK.MAX_COST` in policy.ts (cents). -/
def FAST_TRACK_MAX_COST : ℚ := 300000

/-- `ESCALATION.MIN_CONFIDENCE` in policy.ts. -/
def ESCALATION_MIN_CONFIDENCE : ℚ := 3/5

/-- `ESCALATION.HIGH_EXPOSURE_THRESHOLD` in policy.ts (cents). -/
def ESCALATION_HIGH_EXPOSURE_THRESHOLD : ℚ := 500000

/-- `FEATURES.ENABLE_FRAUD_DETECTION` in policy.ts. -/
def ENABLE_FRAUD_DETECTION : Bool := true

-- ============================================================================
-- Policy engine (src/server/policy.ts)
-- ============================================================================

/-- `calculateTotals`: reduce over the parts adding the raw
`estimated_cost_min`/`estimated_cost_max` fields (no estimation, no
labor); a missing field contaminates the sum the way `undefined` does. -/
def calculateTotals (parts : List DamagedPart) : Option ℚ × Option ℚ :=
  parts.foldl
    (fun acc part =>
      (jadd acc.1 part.estimated_cost_min, jadd acc.2 part.estimated_cost_max))
    (some 0, some 0)

/-- `calculateOverallConfidence`: 0 for no parts, else the mean of the
confidences rounded to 2 decimals (`round(avg × 100) / 100`). -/
def calculateOverallConfidence (parts : List DamagedPart) : ℚ :=
  if parts.length = 0 then 0
  else
    let avg := (parts.foldl (fun sum p => sum + p.confidence) 0) / (parts.length : ℚ)
    ((jsRound (avg * 100) : ℤ) : ℚ) / 100

/-- The `parts.some(...)` test of `collectRiskFlags`: some part has
severity `structural` or part id `FRAME`. -/
def hasStructuralPart (parts : List DamagedPart) : Bool :=
  parts.any (fun p => p.severity == "structural" || p.part_id == "frame")

/-- `collectRiskFlags` of policy.ts: structural damage, high exposure,
low confidence, and the historical-anomaly inconsistency signal, pushed
in that order. -/
def collectRiskFlags (parts : List DamagedPart) (total_max : Option ℚ)
    (overall_confidence : ℚ) (context : PolicyContext) : List RiskFlag :=
  let flags : List RiskFlag := []
  let flags := if hasStructuralPart parts then
      (if RiskFlag.STRUCTURAL_DAMAGE ∈ flags then flags
       else flags ++ [RiskFlag.STRUCTURAL_DAMAGE])
    else flags
  let flags := if jsGT total_max (some ESCALATION_HIGH_EXPOSURE_THRESHOLD) then
      flags ++ [RiskFlag.HIGH_EXPOSURE] else flags
  let flags := if overall_confidence < ESCALATION_MIN_CONFIDENCE then
      flags ++ [RiskFlag.LOW_CONFIDENCE] else flags
  let flags := match context.historicalData with
    | some h =>
        if h.standardDeviation > 3/10 then flags ++ [RiskFlag.INCONSISTENT_DAMAGE]
        else flags
    | none => flags
  flags

/-- `determineRecommendation` of policy.ts: structural first, then the
fast-track window, then senior escalation, else manual review. -/
def determineRecommendation (confidence : ℚ) (total_max : Option ℚ)
    (parts : List DamagedPart) (flags : List RiskFlag) : Recommendation :=
  if RiskFlag.STRUCTURAL_DAMAGE ∈ flags then
    { code := RecommendationCode.ESCALATE_STRUCTURAL
      text := "Escalate for structural review" }
  else if FAST_TRACK_CONFIDENCE_THRESHOLD ≤ confidence ∧
      jsLE total_max FAST_TRACK_MAX_COST = true ∧
      RiskFlag.HIGH_EXPOSURE ∉ flags ∧ RiskFlag.LOW_CONFIDENCE ∉ flags then
    { code := RecommendationCode.FAST_TRACK_REVIEW
      text := "Fast-track approval recommended" }
  else if confidence < ESCALATION_MIN_CONFIDENCE ∨
      jsGT total_max (some ESCALATION_HIGH_EXPOSURE_THRESHOLD) = true then
    { code := RecommendationCode.ESCALATE_SENIOR
      text := "Escalate to senior adjuster" }
  else
    { code := RecommendationCode.MANUAL_REVIEW
      text := "Manual review recommended" }

/-- `calculateFraudRiskScore` of policy.ts: additive heuristic
(+0.3 minor-but-expensive part, +0.2 more than 5 parts, +0.4 historical
mismatch) capped at 1. -/
def calculateFraudRiskScore (parts : List DamagedPart)
    (context : PolicyContext) : ℚ :=
  let score : ℚ := 0
  let score := if parts.any
      (fun p => p.severity == "minor" && jsGT p.estimated_cost_max (some 100000))
    then score + 3/10 else score
  let score := if 5 < parts.length then score + 1/5 else score
  let score := match context.historicalData with
    | some h =>
        let estTotal := parts.foldl (fun sum p => jadd sum p.estimated_cost_max) (some 0)
        if jsGT (Option.map (fun t => |h.averageFinalCost - t|) estTotal)
            (some (h.standardDeviation * 2)) then score + 2/5
        else score
    | none => score
  jmin 1 score

/-- `generateImageQualityCheck` of policy.ts. -/
def generateImageQualityCheck (parts : List DamagedPart) : List String :=
  let notes : List String := []
  let notes := if parts.any (fun p => decide (p.confidence < 3/5)) then
      notes ++ ["One or more parts have low model confidence; request clearer photos or additional angles."]
    else notes
  let notes := if parts.length = 0 then
      notes ++ ["No parts detected; verify that photos clearly show the vehicle."]
    else notes
  notes

/-- Dollar rendering `(cents / 100).toFixed(0)` used by the cost
breakdown; `NaN` for a missing amount (`toFixed(0)` rounds like
`Math.round` on these non-negative amounts). -/
def fmtCents : Option ℚ → String
  | some c => toString (jsRound (c / 100))
  | none => "NaN"

/-- `generateCostBreakdown` of policy.ts. -/
def generateCostBreakdown (parts : List DamagedPart) : List CostBreakdownItem :=
  parts.map (fun p =>
    { label := p.part_label
      details :=
        ["Severity: " ++ p.severity,
         "Range: $" ++ fmtCents p.estimated_cost_min ++ " - $" ++
           fmtCents p.estimated_cost_max,
         match p.repair_action with
         | some a => "Action: " ++ a
         | none => "Action: assess/confirm with shop"] })

/-- Two-decimal rendering `x.toFixed(2)` of the fraud score. -/
def fixed2 (q : ℚ) : String :=
  let n : ℤ := jsRound (q * 100)
  let sign := if n < 0 then "-" else ""
  let m := n.natAbs
  let frac := m % 100
  sign ++ toString (m / 100) ++ "." ++
    (if frac < 10 then "0" ++ toString frac else toString frac)

/-- `generateComplianceNotes` of policy.ts. -/
def generateComplianceNotes (confidence : ℚ) (total_max : Option ℚ)
    (flags : List RiskFlag) (fraud_risk_score : Option ℚ) : List String :=
  let notes : List String := []
  let notes := if confidence < 1/2 then
      notes ++ ["Low model confidence: full manual verification required before payout."]
    else notes
  let notes := if jsGT total_max (some 1000000) then
      notes ++ ["High value claim: ensure enhanced approval workflow and compliance review."]
    else notes
  let notes := if RiskFlag.STRUCTURAL_DAMAGE ∈ flags then
      notes ++ ["Structural damage indicated: ensure safety standards and OEM repair guidelines are followed."]
    else notes
  let notes := match fraud_risk_score with
    | some f =>
        if f > 1/2 then
          notes ++ ["Elevated fraud risk score (" ++ fixed2 f ++ "): document justification and consider SIU review."]
        else notes
    | none => notes
  notes

/-- `determineRouting` of policy.ts: pure lookup from the recommendation
code to assignee, priority, SLA and required actions. -/
def determineRouting (code : RecommendationCode) : RoutingInstructions :=
  match code with
  | RecommendationCode.FAST_TRACK_REVIEW =>
      { assignTo := Assignee.agent, priority := 2, estimatedTimeMinutes := 15
        requiredActions := ["Quick validation", "Fast-track approval"] }
  | RecommendationCode.ESCALATE_STRUCTURAL =>
      { assignTo := Assignee.structural_engineer, priority := 5
        estimatedTimeMinutes := 120
        requiredActions := ["Structural assessment", "Safety inspection", "Detailed report"] }
  | RecommendationCode.ESCALATE_SENIOR =>
      { assignTo := Assignee.senior_adjuster, priority := 4
        estimatedTimeMinutes := 60
        requiredActions := ["Comprehensive review", "Cost validation", "Approval decision"] }
  | RecommendationCode.MANUAL_REVIEW =>
      { assignTo := Assignee.agent, priority := 3, estimatedTimeMinutes := 30
        requiredActions := ["Initial review", "Cost confirmation"] }

/-- `applyPolicy` of policy.ts: totals, confidence, flags,
recommendation, fraud score, image-quality notes, cost breakdown,
compliance notes, routing, assembled into a `PolicyDecision`. -/
def applyPolicy (parts : List DamagedPart) (context : PolicyContext) : PolicyDecision :=
  let totals := calculateTotals parts
  let overall_confidence := calculateOverallConfidence parts
  let flags := collectRiskFlags parts totals.2 overall_confidence context
  let recommendation := determineRecommendation overall_confidence totals.2 parts flags
  let fraud_risk_score :=
    if ENABLE_FRAUD_DETECTION then some (calculateFraudRiskScore parts context)
    else none
  let image_quality := generateImageQualityCheck parts
  let cost_breakdown := generateCostBreakdown parts
  let complianceNotes :=
    generateComplianceNotes overall_confidence totals.2 flags fraud_risk_score
  { assessment :=
      { damaged_parts := parts
        total_min := totals.1
        total_max := totals.2
        overall_confidence := overall_confidence
        recommendation := some recommendation
        flags := flags
        image_quality := image_quality
        cost_breakdown := cost_breakdown
        fraud_risk_score := fraud_risk_score }
    routingInstructions := determineRouting recommendation.code
    complianceNotes := complianceNotes }

/-- `validateAssessment` of policy.ts: collects human-readable error
strings (empty part list, inverted totals, out-of-range confidence,
missing recommendation code); `valid` iff no error. -/
def validateAssessment (assessment : Assessment) : ValidationResult :=
  let errors : List String := []
  let errors := if assessment.damaged_parts.length = 0 then
      errors ++ ["Assessment must include at least one damaged part."]
    else errors
  let errors := if jsGT assessment.total_min assessment.total_max then
      errors ++ ["Minimum cost cannot exceed maximum cost."]
    else errors
  let errors := if assessment.overall_confidence < 0 ∨ assessment.overall_confidence > 1 then
      errors ++ ["Confidence must be between 0 and 1."]
    else errors
  let errors := if assessment.recommendation.isNone then
      errors ++ ["Assessment must include a recommendation code."]
    else errors
  { valid := errors.isEmpty, errors := errors }

-- ============================================================================
-- API route mock pipeline (src/app/api/damage_assessment/route.ts)
-- ============================================================================

/-- `CONFIG.HIGH_EXPOSURE_THRESHOLD` of route.ts (cents; the route uses
its own `$3,000` threshold, distinct from the policy engine's). -/
def ROUTE_HIGH_EXPOSURE_THRESHOLD : ℚ := 300000

/-- The severity-to-score mapping of route.ts
`calculateSeverityVariance` (minor 1, moderate 2, severe 3, replace 3.5,
structural 4, 0 otherwise). -/
def severityScore (severity : String) : ℚ :=
  if severity = "minor" then 1
  else if severity = "moderate" then 2
  else if severity = "severe" then 3
  else if severity = "replace" then 7/2
  else if severity = "structural" then 4
  else 0

/-- The variance computed inside route.ts `calculateSeverityVariance`
before its final `Math.sqrt`: 0 for fewer than 2 parts, else the
population variance of the severity scores.  The source returns
`Math.sqrt` of this value, so every source comparison
`calculateSeverityVariance(parts) > c` (with `c ≥ 0`) is embedded as
`calculateSeverityVarianceSq parts > c²`. -/
def calculateSeverityVarianceSq (parts : List DamagedPart) : ℚ :=
  if parts.length < 2 then 0
  else
    let scores := parts.map (fun p => severityScore p.severity)
    let mean := scores.foldl (fun a b => a + b) 0 / (scores.length : ℚ)
    scores.foldl (fun sum s => sum + (s - mean) ^ 2) 0 / (scores.length : ℚ)

/-- `collectRiskFlags` of route.ts (the mock pipeline's version): low
confidence, high exposure (≥ its own threshold), structural damage,
missing angles when fewer than 3 photos, inconsistent damage when the
severity spread exceeds 0.5 (embedded as variance > 1/4). -/
def routeCollectRiskFlags (confidence : ℚ) (totalMax : ℚ)
    (parts : List DamagedPart) (photos : List Photo) : List RiskFlag :=
  let flags : List RiskFlag := []
  let flags := if confidence < 3/5 then flags ++ [RiskFlag.LOW_CONFIDENCE] else flags
  let flags := if ROUTE_HIGH_EXPOSURE_THRESHOLD ≤ totalMax then
      flags ++ [RiskFlag.HIGH_EXPOSURE] else flags
  let flags := if parts.any
      (fun p => p.severity == "structural" || p.part_id == "frame") then
      flags ++ [RiskFlag.STRUCTURAL_DAMAGE] else flags
  let flags := if photos.length < 3 then flags ++ [RiskFlag.MISSING_ANGLES] else flags
  let flags := if 1/4 < calculateSeverityVarianceSq parts then
      flags ++ [RiskFlag.INCONSISTENT_DAMAGE] else flags
  flags

-- ============================================================================
-- Input fixtures for the concrete witnesses and counterexamples
-- ============================================================================

/-- A fully costed moderate part (caller-supplied valid range 100–200 cents). -/
def partCosted : DamagedPart :=
  { part_id := "rear_bumper", part_label := "Rear bumper", severity := "moderate"
    confidence := 9/10, estimated_cost_min := some 100, estimated_cost_max := some 200
    repair_action := none, damage_types := [] }

/-- A taillight with minor scuff damage and no caller-supplied costs: its
derived midpoint is small enough to expose the one-sided cost floor. -/
def partFloorBug : DamagedPart :=
  { part_id := "rear_left_taillight", part_label := "Rear left taillight"
    severity := "minor", confidence := 9/10
    estimated_cost_min := none, estimated_cost_max := none
    repair_action := none
    damage_types := [{ type := "scuff", severity := "minor", area_percentage := none }] }

/-- A part with a caller-supplied consistent range. -/
def partPassThrough : DamagedPart :=
  { part_id := "trunk_lid", part_label := "Trunk lid", severity := "severe"
    confidence := 4/5, estimated_cost_min := some 12345, estimated_cost_max := some 20000
    repair_action := some "replace", damage_types := [] }

/-- A frame part (structural by part id). -/
def partFrame : DamagedPart :=
  { part_id := "frame", part_label := "Frame", severity := "moderate"
    confidence := 99/100, estimated_cost_min := some 1000, estimated_cost_max := some 2000
    repair_action := none, damage_types := [] }

/-- A minor-severity part with a high cost ceiling (fraud heuristic input). -/
def partMinorHighCost : DamagedPart :=
  { part_id := "rear_bumper", part_label := "Rear bumper", severity := "minor"
    confidence := 9/10, estimated_cost_min := some 120000, estimated_cost_max := some 150000
    repair_action := none, damage_types := [] }

/-- A small minor part (severity-spread input). -/
def partMinorSmall : DamagedPart :=
  { part_id := "rear_bumper", part_label := "Rear bumper", severity := "minor"
    confidence := 9/10, estimated_cost_min := some 5000, estimated_cost_max := some 10000
    repair_action := none, damage_types := [] }

/-- A severe part (severity-spread input). -/
def partSevereSmall : DamagedPart :=
  { part_id := "trunk_lid", part_label := "Trunk lid", severity := "severe"
    confidence := 9/10, estimated_cost_min := some 50000, estimated_cost_max := some 90000
    repair_action := none, damage_types := [] }

/-- A part whose severity string is outside the `PartSeverity` enum. -/
def partBogusSeverity : DamagedPart :=
  { part_id := "rear_bumper", part_label := "Rear bumper", severity := "bogus"
    confidence := 9/10, estimated_cost_min := some 100, estimated_cost_max := some 200
    repair_action := none, damage_types := [] }

/-- An otherwise well-formed assessment whose only part carries the
unknown severity string. -/
def assessmentBogusSeverity : Assessment :=
  { damaged_parts := [partBogusSeverity], total_min := some 100, total_max := some 200
    overall_confidence := 9/10
    recommendation := some { code := RecommendationCode.MANUAL_REVIEW
                             text := "Manual review recommended" }
    flags := [], image_quality := [], cost_breakdown := [], fraud_risk_score := none }

-- ============================================================================
-- Helper lemmas
-- ============================================================================

/-- `Rat.floor` agrees with the floor of the `FloorRing` instance. -/
theorem ratFloor_eq (q : ℚ) : q.floor = ⌊q⌋ := rfl

/-- Characterization of `jsRound` used to evaluate concrete roundings. -/
theorem jsRound_eq (q : ℚ) (n : ℤ) (h1 : (n : ℚ) ≤ q + 1/2)
    (h2 : q + 1/2 < (n : ℚ) + 1) : jsRound q = n := by
  rw [jsRound, ratFloor_eq]
  exact Int.floor_eq_iff.2 ⟨h1, by linarith⟩

/-- Lowercasing evaluated on the literal "minor". -/
theorem toLower_minor : "minor".toLower = "minor" := by
  simp only [String.toLower]; rw [String.map_eq]; decide

/-- Lowercasing evaluated on the literal "scuff". -/
theorem toLower_scuff : "scuff".toLower = "scuff" := by
  simp only [String.toLower]; rw [String.map_eq]; decide

/-- `jmin` is the lattice minimum. -/
theorem jmin_eq_min (a b : ℚ) : jmin a b = min a b := by
  rw [jmin, min_def]

/-- `jadd` on two numbers. -/
theorem jadd_some (a b : ℚ) : jadd (some a) (some b) = some (a + b) := rfl

/-- The strict comparison against a non-negative bound reads through
`Option.getD 0`. -/
theorem jsGT_some_iff (a : Option ℚ) (c : ℚ) (hc : 0 ≤ c) :
    jsGT a (some c) = true ↔ c < a.getD 0 := by
  cases a with
  | none => simpa [jsGT] using hc
  | some x => simp [jsGT]

/-- The running policy totals over fully costed parts are the plain sums
of the cost fields. -/
theorem calculateTotals_go (parts : List DamagedPart) (a b : ℚ)
    (h : ∀ p ∈ parts, p.estimated_cost_min.isSome ∧ p.estimated_cost_max.isSome) :
    parts.foldl
      (fun acc part =>
        (jadd acc.1 part.estimated_cost_min, jadd acc.2 part.estimated_cost_max))
      (some a, some b)
    = (some (a + (parts.map (fun p => p.estimated_cost_min.getD 0)).sum),
       some (b + (parts.map (fun p => p.estimated_cost_max.getD 0)).sum)) := by
  induction parts generalizing a b with
  | nil => simp
  | cons p ps ih =>
      obtain ⟨h1, h2⟩ := h p (List.mem_cons_self p ps)
      obtain ⟨x, hx⟩ := Option.isSome_iff_exists.1 h1
      obtain ⟨y, hy⟩ := Option.isSome_iff_exists.1 h2
      simp only [List.foldl_cons]
      rw [show jadd (some a) p.estimated_cost_min = some (a + x) from by
          rw [hx, jadd_some],
        show jadd (some b) p.estimated_cost_max = some (b + y) from by
          rw [hy, jadd_some],
        ih (a + x) (b + y) (fun q hq => h q (List.mem_cons_of_mem _ hq))]
      simp [hx, hy, add_assoc]

/-- `calculateTotals` over fully costed parts. -/
theorem calculateTotals_eq (parts : List DamagedPart)
    (h : ∀ p ∈ parts, p.estimated_cost_min.isSome ∧ p.estimated_cost_max.isSome) :
    calculateTotals parts
      = (some ((parts.map (fun p => p.estimated_cost_min.getD 0)).sum),
         some ((parts.map (fun p => p.estimated_cost_max.getD 0)).sum)) := by
  rw [calculateTotals, calculateTotals_go parts 0 0 h]
  simp

/-- The fold of `computeTotalsFromParts` is the sum of the estimated
per-part ranges. -/
theorem partsRange_go (parts : List DamagedPart) (a b : ℚ) :
    parts.foldl
      (fun acc part =>
        let r := estimatePartCostRange part
        (acc.1 + r.1, acc.2 + r.2)) (a, b)
    = (a + (parts.map (fun p => (estimatePartCostRange p).1)).sum,
       b + (parts.map (fun p => (estimatePartCostRange p).2)).sum) := by
  induction parts generalizing a b with
  | nil => simp
  | cons p ps ih =>
      simp only [List.foldl_cons, List.map_cons, List.sum_cons]
      rw [ih]
      simp [add_assoc]

/-- The test behind the structural flag, in propositional form. -/
theorem hasStructuralPart_iff (parts : List DamagedPart) :
    hasStructuralPart parts = true ↔
      ∃ p ∈ parts, p.severity = "structural" ∨ p.part_id = "frame" := by
  simp [hasStructuralPart, List.any_eq_true]

set_option maxHeartbeats 1000000 in
/-- Exactly which flags `collectRiskFlags` (policy.ts) can emit, and
under which conditions: the engine-side collector knows nothing about
photos or severity spread. -/
theorem collectRiskFlags_members (parts : List DamagedPart) (tm : Option ℚ)
    (conf : ℚ) (ctx : PolicyContext) (f : RiskFlag) :
    f ∈ collectRiskFlags parts tm conf ctx ↔
      (f = RiskFlag.STRUCTURAL_DAMAGE ∧ hasStructuralPart parts = true) ∨
      (f = RiskFlag.HIGH_EXPOSURE ∧
        jsGT tm (some ESCALATION_HIGH_EXPOSURE_THRESHOLD) = true) ∨
      (f = RiskFlag.LOW_CONFIDENCE ∧ conf < ESCALATION_MIN_CONFIDENCE) ∨
      (f = RiskFlag.INCONSISTENT_DAMAGE ∧
        ∃ h, ctx.historicalData = some h ∧ h.standardDeviation > 3/10) := by
  obtain ⟨hd, uid⟩ := ctx
  cases hd with
  | none =>
      simp only [collectRiskFlags]
      split_ifs <;> cases f <;> simp_all [List.mem_append]
  | some h =>
      simp only [collectRiskFlags]
      split_ifs <;> cases f <;> simp_all [List.mem_append]

/-- The policy-side collector never emits `MISSING_ANGLES`. -/
theorem collectRiskFlags_no_missing_angles (parts : List DamagedPart)
    (tm : Option ℚ) (conf : ℚ) (ctx : PolicyContext) :
    RiskFlag.MISSING_ANGLES ∉ collectRiskFlags parts tm conf ctx := by
  simpa using (collectRiskFlags_members parts tm conf ctx RiskFlag.MISSING_ANGLES).not.2

set_option maxHeartbeats 1000000 in
/-- Exactly which flags the route.ts mock collector can emit, and under
which conditions. -/
theorem routeCollectRiskFlags_members (conf tm : ℚ) (parts : List DamagedPart)
    (photos : List Photo) (f : RiskFlag) :
    f ∈ routeCollectRiskFlags conf tm parts photos ↔
      (f = RiskFlag.LOW_CONFIDENCE ∧ conf < 3/5) ∨
      (f = RiskFlag.HIGH_EXPOSURE ∧ ROUTE_HIGH_EXPOSURE_THRESHOLD ≤ tm) ∨
      (f = RiskFlag.STRUCTURAL_DAMAGE ∧
        parts.any (fun p => p.severity == "structural" || p.part_id == "frame") = true) ∨
      (f = RiskFlag.MISSING_ANGLES ∧ photos.length < 3) ∨
      (f = RiskFlag.INCONSISTENT_DAMAGE ∧ 1/4 < calculateSeverityVarianceSq parts) := by
  simp only [routeCollectRiskFlags]
  split_ifs <;> cases f <;> simp_all [List.mem_append]

/-- The flags of an `applyPolicy` assessment come from the policy-side
collector. -/
theorem applyPolicy_flags (parts : List DamagedPart) (ctx : PolicyContext) :
    (applyPolicy parts ctx).assessment.flags
      = collectRiskFlags parts (calculateTotals parts).2
          (calculateOverallConfidence parts) ctx := rfl

/-- The recommendation of an `applyPolicy` assessment. -/
theorem applyPolicy_recommendation (parts : List DamagedPart) (ctx : PolicyContext) :
    (applyPolicy parts ctx).assessment.recommendation
      = some (determineRecommendation (calculateOverallConfidence parts)
          (calculateTotals parts).2 parts
          (collectRiskFlags parts (calculateTotals parts).2
            (calculateOverallConfidence parts) ctx)) := rfl

/-- The totals of an `applyPolicy` assessment. -/
theorem applyPolicy_total_min (parts : List DamagedPart) (ctx : PolicyContext) :
    (applyPolicy parts ctx).assessment.total_min = (calculateTotals parts).1 := rfl

/-- The totals of an `applyPolicy` assessment (upper bound). -/
theorem applyPolicy_total_max (parts : List DamagedPart) (ctx : PolicyContext) :
    (applyPolicy parts ctx).assessment.total_max = (calculateTotals parts).2 := rfl

/-- The fraud score of an `applyPolicy` assessment (the fraud-detection
feature flag is on). -/
theorem applyPolicy_fraud (parts : List DamagedPart) (ctx : PolicyContext) :
    (applyPolicy parts ctx).assessment.fraud_risk_score
      = some (calculateFraudRiskScore parts ctx) := rfl

/-- The routing of an `applyPolicy` decision is the lookup at the
recommendation's code. -/
theorem applyPolicy_routing (parts : List DamagedPart) (ctx : PolicyContext) :
    (applyPolicy parts ctx).routingInstructions
      = determineRouting (determineRecommendation (calculateOverallConfidence parts)
          (calculateTotals parts).2 parts
          (collectRiskFlags parts (calculateTotals parts).2
            (calculateOverallConfidence parts) ctx)).code := rfl

/-- A structural-damage flag forces the structural escalation
recommendation. -/
theorem determineRecommendation_structural (conf : ℚ) (tm : Option ℚ)
    (parts : List DamagedPart) (flags : List RiskFlag)
    (h : RiskFlag.STRUCTURAL_DAMAGE ∈ flags) :
    determineRecommendation conf tm parts flags
      = { code := RecommendationCode.ESCALATE_STRUCTURAL
          text := "Escalate for structural review" } := by
  rw [determineRecommendation, if_pos h]

-- ============================================================================
-- Claim theorems
-- ============================================================================

/-- Claim C3: every parts list containing a structural-severity part or a
FRAME part makes `applyPolicy` set the STRUCTURAL_DAMAGE flag and return
the ESCALATE_STRUCTURAL recommendation, for every context, regardless of
confidences or costs. -/
theorem applyPolicy_structural_dominance (parts : List DamagedPart)
    (ctx : PolicyContext)
    (h : ∃ p ∈ parts, p.severity = "structural" ∨ p.part_id = "frame") :
    RiskFlag.STRUCTURAL_DAMAGE ∈ (applyPolicy parts ctx).assessment.flags ∧
    Option.map Recommendation.code (applyPolicy parts ctx).assessment.recommendation
      = some RecommendationCode.ESCALATE_STRUCTURAL := by
  have hs : hasStructuralPart parts = true := (hasStructuralPart_iff parts).2 h
  have hmem : RiskFlag.STRUCTURAL_DAMAGE ∈
      collectRiskFlags parts (calculateTotals parts).2
        (calculateOverallConfidence parts) ctx :=
    (collectRiskFlags_members parts (calculateTotals parts).2
      (calculateOverallConfidence parts) ctx RiskFlag.STRUCTURAL_DAMAGE).2
      (Or.inl ⟨rfl, hs⟩)
  refine ⟨?_, ?_⟩
  · rw [applyPolicy_flags]
    exact hmem
  · rw [applyPolicy_recommendation,
      determineRecommendation_structural _ _ _ _ hmem]
    rfl

/-- Claim C3 witness: a frame part forces structural escalation. -/
theorem applyPolicy_structural_dominance_witness :
    RiskFlag.STRUCTURAL_DAMAGE ∈ (applyPolicy [partFrame] {}).assessment.flags ∧
    Option.map Recommendation.code (applyPolicy [partFrame] {}).assessment.recommendation
      = some RecommendationCode.ESCALATE_STRUCTURAL :=
  applyPolicy_structural_dominance [partFrame] {} ⟨partFrame, by simp, Or.inr rfl⟩

/-- Claim C4 (amended): `applyPolicy` never emits MISSING_ANGLES — its
context carries no photo information; the photo-count rule lives in the
API route's own `collectRiskFlags`, which flags exactly when fewer than
3 photos accompany the request. -/
theorem missing_angles_amended :
    (∀ (parts : List DamagedPart) (ctx : PolicyContext),
      RiskFlag.MISSING_ANGLES ∉ (applyPolicy parts ctx).assessment.flags) ∧
    (∀ (conf tm : ℚ) (parts : List DamagedPart) (photos : List Photo),
      RiskFlag.MISSING_ANGLES ∈ routeCollectRiskFlags conf tm parts photos ↔
        photos.length < 3) := by
  constructor
  · intro parts ctx
    rw [applyPolicy_flags]
    exact collectRiskFlags_no_missing_angles parts (calculateTotals parts).2
      (calculateOverallConfidence parts) ctx
  · intro conf tm parts photos
    simpa using routeCollectRiskFlags_members conf tm parts photos
      RiskFlag.MISSING_ANGLES

/-- Claim C4 counterexample: a concrete `applyPolicy` call whose context
supplies no photos (hence fewer than 3) and whose returned flags do not
contain MISSING_ANGLES. -/
theorem missing_angles_counterexample :
    (RiskFlag.MISSING_ANGLES ∈ (applyPolicy [partCosted] {}).assessment.flags)
      ↔ False := by
  rw [applyPolicy_flags]
  exact iff_false_intro (collectRiskFlags_no_missing_angles [partCosted] _ _ {})

/-- Claim C5 (amended): the policy engine flags INCONSISTENT_DAMAGE
exactly when the context's historical standard deviation exceeds 0.3;
the severity-spread fallback (score deviation above 0.5, i.e. variance
above 1/4, defined only with at least 2 parts) exists only in the API
route's own `collectRiskFlags`, where it is the only trigger. -/
theorem inconsistent_damage_amended :
    (∀ (parts : List DamagedPart) (ctx : PolicyContext),
      RiskFlag.INCONSISTENT_DAMAGE ∈ (applyPolicy parts ctx).assessment.flags ↔
        ∃ h, ctx.historicalData = some h ∧ h.standardDeviation > 3/10) ∧
    (∀ (conf tm : ℚ) (parts : List DamagedPart) (photos : List Photo),
      RiskFlag.INCONSISTENT_DAMAGE ∈ routeCollectRiskFlags conf tm parts photos ↔
        1/4 < calculateSeverityVarianceSq parts) := by
  constructor
  · intro parts ctx
    rw [applyPolicy_flags]
    simpa using collectRiskFlags_members parts (calculateTotals parts).2
      (calculateOverallConfidence parts) ctx RiskFlag.INCONSISTENT_DAMAGE
  · intro conf tm parts photos
    simpa using routeCollectRiskFlags_members conf tm parts photos
      RiskFlag.INCONSISTENT_DAMAGE

/-- Claim C5 counterexample: two parts with severities minor and severe
(score deviation 1 > 0.5, no historical data) for which `applyPolicy`
does not flag INCONSISTENT_DAMAGE. -/
theorem inconsistent_damage_counterexample :
    ((RiskFlag.INCONSISTENT_DAMAGE ∈
        (applyPolicy [partMinorSmall, partSevereSmall] {}).assessment.flags) ↔ False) ∧
    1/4 < calculateSeverityVarianceSq [partMinorSmall, partSevereSmall] ∧
    2 ≤ ([partMinorSmall, partSevereSmall] : List DamagedPart).length ∧
    ({} : PolicyContext).historicalData = none := by
  refine ⟨?_, ?_, by simp, rfl⟩
  · rw [applyPolicy_flags]
    simpa using collectRiskFlags_members [partMinorSmall, partSevereSmall] _ _ {}
      RiskFlag.INCONSISTENT_DAMAGE
  · norm_num +decide [calculateSeverityVarianceSq, severityScore,
      partMinorSmall, partSevereSmall, List.foldl_cons, List.foldl_nil]

/-- Claim C10: for every recommendation code, `determineRouting` assigns
to agent, senior_adjuster or structural_engineer — never the declared
"siu" assignee — with priority 2, 3, 4 or 5; hence the same holds of the
routing of every `applyPolicy` result. -/
theorem determineRouting_assignee_priority :
    (∀ code : RecommendationCode,
      ((determineRouting code).assignTo = Assignee.agent ∨
       (determineRouting code).assignTo = Assignee.senior_adjuster ∨
       (determineRouting code).assignTo = Assignee.structural_engineer) ∧
      (determineRouting code).assignTo ≠ Assignee.siu ∧
      ((determineRouting code).priority = 2 ∨ (determineRouting code).priority = 3 ∨
       (determineRouting code).priority = 4 ∨ (determineRouting code).priority = 5)) ∧
    (∀ (parts : List DamagedPart) (ctx : PolicyContext),
      (((applyPolicy parts ctx).routingInstructions).assignTo = Assignee.agent ∨
       ((applyPolicy parts ctx).routingInstructions).assignTo = Assignee.senior_adjuster ∨
       ((applyPolicy parts ctx).routingInstructions).assignTo = Assignee.structural_engineer) ∧
      ((applyPolicy parts ctx).routingInstructions).assignTo ≠ Assignee.siu ∧
      (((applyPolicy parts ctx).routingInstructions).priority = 2 ∨
       ((applyPolicy parts ctx).routingInstructions).priority = 3 ∨
       ((applyPolicy parts ctx).routingInstructions).priority = 4 ∨
       ((applyPolicy parts ctx).routingInstructions).priority = 5)) := by
  have h1 : ∀ code : RecommendationCode,
      ((determineRouting code).assignTo = Assignee.agent ∨
       (determineRouting code).assignTo = Assignee.senior_adjuster ∨
       (determineRouting code).assignTo = Assignee.structural_engineer) ∧
      (determineRouting code).assignTo ≠ Assignee.siu ∧
      ((determineRouting code).priority = 2 ∨ (determineRouting code).priority = 3 ∨
       (determineRouting code).priority = 4 ∨ (determineRouting code).priority = 5) := by
    intro code
    cases code <;> simp [determineRouting]
  refine ⟨h1, fun parts ctx => ?_⟩
  rw [applyPolicy_routing]
  exact h1 _

/-- Claim C6: a part carrying numeric `estimated_cost_min` and
`estimated_cost_max` with `max ≥ min` passes through
`estimatePartCostRange` unchanged. -/
theorem estimatePartCostRange_passthrough (p : DamagedPart) (lo hi : ℚ)
    (h1 : p.estimated_cost_min = some lo) (h2 : p.estimated_cost_max = some hi)
    (h3 : lo ≤ hi) :
    estimatePartCostRange p = (lo, hi) := by
  unfold estimatePartCostRange
  simp only [h1, h2]
  simp [h3]

/-- Claim C6 witness: the caller-supplied range 12345–20000 of
`partPassThrough` is returned unchanged. -/
theorem estimatePartCostRange_passthrough_witness :
    estimatePartCostRange partPassThrough = (12345, 20000) :=
  estimatePartCostRange_passthrough partPassThrough 12345 20000 rfl rfl (by norm_num)

/-- Claim C8: on an empty parts list `applyPolicy` returns totals of
`some 0`, overall confidence 0, and the no-parts image-quality note,
for every context. -/
theorem applyPolicy_empty_parts (ctx : PolicyContext) :
    (applyPolicy [] ctx).assessment.total_min = some 0 ∧
    (applyPolicy [] ctx).assessment.total_max = some 0 ∧
    (applyPolicy [] ctx).assessment.overall_confidence = 0 ∧
    "No parts detected; verify that photos clearly show the vehicle."
      ∈ (applyPolicy [] ctx).assessment.image_quality := by
  refine ⟨rfl, rfl, rfl, ?_⟩
  show _ ∈ generateImageQualityCheck []
  simp [generateImageQualityCheck]

/-- Claim C9 (amended): `validateAssessment` never throws (it is a total
function); its error list is non-empty exactly when the part list is
empty, the totals are inverted, the confidence is out of range, or the
recommendation code is missing; `valid` holds exactly when the error
list is empty. (The source performs no check on severity strings.) -/
theorem validateAssessment_amended (a : Assessment) :
    (validateAssessment a).valid = (validateAssessment a).errors.isEmpty ∧
    ((validateAssessment a).errors ≠ [] ↔
      (a.damaged_parts.length = 0 ∨ jsGT a.total_min a.total_max = true ∨
       a.overall_confidence < 0 ∨ a.overall_confidence > 1 ∨
       a.recommendation.isNone = true)) := by
  constructor
  · rfl
  · unfold validateAssessment
    split_ifs <;> simp_all

/-- Claim C9 counterexample: an assessment whose only part carries the
severity string "bogus" (not a `PartSeverity` value) is accepted by
`validateAssessment` with no errors and `valid = true`. -/
theorem validateAssessment_severity_counterexample :
    validateAssessment assessmentBogusSeverity = { valid := true, errors := [] } ∧
    (∃ p ∈ assessmentBogusSeverity.damaged_parts,
      p.severity ∉ PartSeverity_values) := by
  constructor
  · norm_num +decide [validateAssessment, assessmentBogusSeverity, jsGT,
      partBogusSeverity]
  · exact ⟨partBogusSeverity, by simp [assessmentBogusSeverity], by decide⟩

/-- The running `jadd` fold over parts whose cost ceilings are numeric is
the plain sum. -/
theorem jadd_foldl_max (parts : List DamagedPart) (a : ℚ)
    (h : ∀ p ∈ parts, p.estimated_cost_max.isSome) :
    parts.foldl (fun sum p => jadd sum p.estimated_cost_max) (some a)
      = some (a + (parts.map (fun p => p.estimated_cost_max.getD 0)).sum) := by
  induction parts generalizing a with
  | nil => simp
  | cons p ps ih =>
      obtain ⟨y, hy⟩ := Option.isSome_iff_exists.1 (h p (List.mem_cons_self p ps))
      simp only [List.foldl_cons]
      rw [show jadd (some a) p.estimated_cost_max = some (a + y) from by
          rw [hy, jadd_some],
        ih (a + y) (fun q hq => h q (List.mem_cons_of_mem _ hq))]
      simp [hy, add_assoc]

/-- The strict JS comparison on two numbers. -/
theorem jsGT_some_some (a b : ℚ) : jsGT (some a) (some b) = true ↔ b < a := by
  simp [jsGT]

/-- The minor-but-expensive fraud test in propositional form. -/
theorem fraud_any_iff (parts : List DamagedPart) :
    (parts.any (fun p => p.severity == "minor" &&
        jsGT p.estimated_cost_max (some 100000)) = true) ↔
      ∃ p ∈ parts, p.severity = "minor" ∧ 100000 < p.estimated_cost_max.getD 0 := by
  simp only [List.any_eq_true, Bool.and_eq_true, beq_iff_eq]
  exact exists_congr fun p => and_congr_right fun _ => and_congr_right fun _ =>
    jsGT_some_iff _ 100000 (by norm_num)

/-- The fraud score is bounded to the unit interval for every input. -/
theorem calculateFraudRiskScore_bounds (parts : List DamagedPart)
    (ctx : PolicyContext) :
    0 ≤ calculateFraudRiskScore parts ctx ∧ calculateFraudRiskScore parts ctx ≤ 1 := by
  obtain ⟨hd, uid⟩ := ctx
  cases hd with
  | none =>
      simp only [calculateFraudRiskScore]
      split_ifs <;> norm_num [jmin]
  | some h =>
      simp only [calculateFraudRiskScore]
      split_ifs <;> norm_num [jmin]

/-- Claim C7: for parts with numeric cost ceilings, the fraud risk score
is `min 1 w` with `w` the sum of 0.3 (a minor part above 100000 cents),
0.2 (more than 5 parts) and 0.4 (historical mismatch beyond two standard
deviations); the score always lies in the unit interval and surfaces
unchanged as the `fraud_risk_score` of `applyPolicy`. -/
theorem calculateFraudRiskScore_spec (parts : List DamagedPart)
    (ctx : PolicyContext) (h : ∀ p ∈ parts, p.estimated_cost_max.isSome) :
    0 ≤ calculateFraudRiskScore parts ctx ∧
    calculateFraudRiskScore parts ctx ≤ 1 ∧
    calculateFraudRiskScore parts ctx =
      min 1 ((if ∃ p ∈ parts, p.severity = "minor" ∧
                  100000 < p.estimated_cost_max.getD 0 then (3:ℚ)/10 else 0)
        + (if 5 < parts.length then (1:ℚ)/5 else 0)
        + (match ctx.historicalData with
           | some hd =>
              if hd.standardDeviation * 2 <
                  |hd.averageFinalCost -
                    (parts.map (fun p => p.estimated_cost_max.getD 0)).sum|
                then (2:ℚ)/5 else 0
           | none => 0)) ∧
    (applyPolicy parts ctx).assessment.fraud_risk_score
      = some (calculateFraudRiskScore parts ctx) := by
  obtain ⟨b1, b2⟩ := calculateFraudRiskScore_bounds parts ctx
  refine ⟨b1, b2, ?_, applyPolicy_fraud parts ctx⟩
  obtain ⟨hd, uid⟩ := ctx
  cases hd with
  | none =>
      simp only [calculateFraudRiskScore, fraud_any_iff, jmin_eq_min]
      split_ifs <;> norm_num
  | some hd =>
      simp only [calculateFraudRiskScore, jmin_eq_min]
      rw [jadd_foldl_max parts 0 h]
      simp only [Option.map_some', zero_add, jsGT_some_some, fraud_any_iff]
      split_ifs <;> norm_num

/-- Claim C7 witness: a single minor part with a 150000-cent ceiling, no
context. -/
theorem calculateFraudRiskScore_spec_witness :
    0 ≤ calculateFraudRiskScore [partMinorHighCost] {} ∧
    calculateFraudRiskScore [partMinorHighCost] {} ≤ 1 ∧
    calculateFraudRiskScore [partMinorHighCost] {} =
      min 1 ((if ∃ p ∈ [partMinorHighCost], p.severity = "minor" ∧
                  100000 < p.estimated_cost_max.getD 0 then (3:ℚ)/10 else 0)
        + (if 5 < ([partMinorHighCost] : List DamagedPart).length then (1:ℚ)/5 else 0)
        + (match ({} : PolicyContext).historicalData with
           | some hd =>
              if hd.standardDeviation * 2 <
                  |hd.averageFinalCost -
                    ([partMinorHighCost].map (fun p => p.estimated_cost_max.getD 0)).sum|
                then (2:ℚ)/5 else 0
           | none => 0)) ∧
    (applyPolicy [partMinorHighCost] {}).assessment.fraud_risk_score
      = some (calculateFraudRiskScore [partMinorHighCost] {}) :=
  calculateFraudRiskScore_spec [partMinorHighCost] {} (by simp [partMinorHighCost])

/-- Claim C1 (amended): the totals of an `applyPolicy` assessment are the
plain sums of the parts' cost fields with no labor term; the labor
surcharge `round(partsSum × LABOR_FRACTION)`, applied separately to each
bound, belongs to `computeTotalsFromParts` in costing.ts, which
`applyPolicy` does not call. -/
theorem totals_and_labor (parts : List DamagedPart) (ctx : PolicyContext)
    (h : ∀ p ∈ parts, p.estimated_cost_min.isSome ∧ p.estimated_cost_max.isSome) :
    (applyPolicy parts ctx).assessment.total_min
        = some ((parts.map (fun p => p.estimated_cost_min.getD 0)).sum) ∧
    (applyPolicy parts ctx).assessment.total_max
        = some ((parts.map (fun p => p.estimated_cost_max.getD 0)).sum) ∧
    computeTotalsFromParts parts =
      { total_min := (parts.map (fun p => (estimatePartCostRange p).1)).sum
            + ((jsRound ((parts.map (fun p => (estimatePartCostRange p).1)).sum
                * LABOR_FRACTION) : ℤ) : ℚ)
        total_max := (parts.map (fun p => (estimatePartCostRange p).2)).sum
            + ((jsRound ((parts.map (fun p => (estimatePartCostRange p).2)).sum
                * LABOR_FRACTION) : ℤ) : ℚ)
        labor_min := ((jsRound ((parts.map (fun p => (estimatePartCostRange p).1)).sum
            * LABOR_FRACTION) : ℤ) : ℚ)
        labor_max := ((jsRound ((parts.map (fun p => (estimatePartCostRange p).2)).sum
            * LABOR_FRACTION) : ℤ) : ℚ) } := by
  refine ⟨?_, ?_, ?_⟩
  · rw [applyPolicy_total_min, calculateTotals_eq parts h]
  · rw [applyPolicy_total_max, calculateTotals_eq parts h]
  · simp only [computeTotalsFromParts, partsRange_go parts 0 0, zero_add]

/-- Claim C1 witness: one fully costed part. -/
theorem totals_and_labor_witness :
    (applyPolicy [partCosted] {}).assessment.total_min
        = some (([partCosted].map (fun p => p.estimated_cost_min.getD 0)).sum) ∧
    (applyPolicy [partCosted] {}).assessment.total_max
        = some (([partCosted].map (fun p => p.estimated_cost_max.getD 0)).sum) ∧
    computeTotalsFromParts [partCosted] =
      { total_min := ([partCosted].map (fun p => (estimatePartCostRange p).1)).sum
            + ((jsRound (([partCosted].map (fun p => (estimatePartCostRange p).1)).sum
                * LABOR_FRACTION) : ℤ) : ℚ)
        total_max := ([partCosted].map (fun p => (estimatePartCostRange p).2)).sum
            + ((jsRound (([partCosted].map (fun p => (estimatePartCostRange p).2)).sum
                * LABOR_FRACTION) : ℤ) : ℚ)
        labor_min := ((jsRound (([partCosted].map (fun p => (estimatePartCostRange p).1)).sum
            * LABOR_FRACTION) : ℤ) : ℚ)
        labor_max := ((jsRound (([partCosted].map (fun p => (estimatePartCostRange p).2)).sum
            * LABOR_FRACTION) : ℤ) : ℚ) } :=
  totals_and_labor [partCosted] {} (by simp [partCosted])

/-- Claim C1 counterexample: a single part with range 100–200 cents; the
claimed labor term would make `total_min` 130, but `applyPolicy` returns
the plain sum 100. -/
theorem totals_labor_counterexample :
    (applyPolicy [partCosted] {}).assessment.total_min = some 100 ∧
    (100 : ℚ) + ((jsRound ((100 : ℚ) * LABOR_FRACTION) : ℤ) : ℚ) = 130 ∧
    ((applyPolicy [partCosted] {}).assessment.total_min
        = some ((100 : ℚ) + ((jsRound ((100 : ℚ) * LABOR_FRACTION) : ℤ) : ℚ))
      ↔ False) := by
  have h1 : (applyPolicy [partCosted] {}).assessment.total_min = some 100 := by
    rw [applyPolicy_total_min, calculateTotals_eq [partCosted] (by simp [partCosted])]
    simp [partCosted]
  have h2 : ((jsRound ((100 : ℚ) * LABOR_FRACTION) : ℤ) : ℚ) = 30 := by
    rw [show (100 : ℚ) * LABOR_FRACTION = 30 by norm_num [LABOR_FRACTION],
      jsRound_eq 30 30 (by norm_num) (by norm_num)]
    norm_num
  refine ⟨h1, by rw [h2]; norm_num, ?_⟩
  rw [h1, h2]
  norm_num

/-- Claim C2, evaluated at the failing input: for `partFloorBug` (base
20000, minor 0.6, scuff clamped to 0.4, midpoint 4800) the estimator
returns min = 10000 (floored) and max = 5760 (not floored): the produced
range has max below min and below the configured MIN_PART_COST floor. -/
theorem estimatePartCostRange_floor_violation :
    estimatePartCostRange partFloorBug = (10000, 5760) ∧
    (estimatePartCostRange partFloorBug).2 < (estimatePartCostRange partFloorBug).1 ∧
    (estimatePartCostRange partFloorBug).2 < MIN_PART_COST := by
  have h : estimatePartCostRange partFloorBug = (10000, 5760) := by
    norm_num +decide [partFloorBug, estimatePartCostRange, derivedCostRange,
      getBasePartCost, BASE_PART_COST, getSeverityMultiplier,
      SEVERITY_MULTIPLIER_BY_KEY, getDamageTypeMultiplier, DAMAGE_TYPE_MULTIPLIERS,
      areaFactor, jmax, jmin, toLower_minor, toLower_scuff, MIN_PART_COST,
      RANGE_MIN_MULTIPLIER, RANGE_MAX_MULTIPLIER, DEFAULT_DAMAGE_TYPE_MULTIPLIER,
      DAMAGE_TYPE_MULTIPLIER_MIN, DAMAGE_TYPE_MULTIPLIER_MAX, DEFAULT_BASE_PART_COST,
      jsRound_eq 3840 3840 (by norm_num) (by norm_num),
      jsRound_eq 5760 5760 (by norm_num) (by norm_num)]
  refine ⟨h, ?_, ?_⟩ <;> rw [h] <;> norm_num [MIN_PART_COST]
